import Mathlib

/-!
Verification development for the SM64 Python port
(src/sm64_port-cat-edition-v0.py).  The game code is shallowly embedded:
Python floats become exact rationals, the mutable MarioState becomes a
record threaded through pure state transformers, and the transcendental
math-library functions (sin/cos/atan2 in degrees, sqrt) are treated as
parameters of an ambient environment, since no claim depends on their
numeric values.
-/

set_option linter.unusedVariables false

namespace SM64

/-- 3D vector with exact rational coordinates (the Python Vec3f float triple). -/
structure Vec3 where
  x : ℚ
  y : ℚ
  z : ℚ
deriving DecidableEq

/-- Componentwise vector addition, as used by the per-sub-step position update. -/
def Vec3.add (a b : Vec3) : Vec3 := ⟨a.x + b.x, a.y + b.y, a.z + b.z⟩

/-- Physics constants, source line 60. -/
def GRAVITY : ℚ := -4

/-- Maximum fall speed, source line 60. -/
def MAX_FALL : ℚ := -75

/-- Maximum walking speed, source line 60. -/
def MAX_WALK : ℚ := 32

/-- Air drag factor 0.98, source line 60. -/
def AIR_DRAG : ℚ := 98 / 100

/-- Button bit masks, source line 61. -/
def IN_A : ℕ := 0x01

/-- Attack button bit. -/
def IN_B : ℕ := 0x02

/-- Crouch button bit (edge). -/
def IN_Z : ℕ := 0x04

/-- Jump held bit. -/
def IN_A_D : ℕ := 0x10

/-- Crouch held bit. -/
def IN_Z_D : ℕ := 0x40

/-- Action ids, source lines 54-58. -/
def ACT_IDLE : ℕ := 0x001

/-- Walking action id. -/
def ACT_WALKING : ℕ := 0x004

/-- Deceleration action id. -/
def ACT_DECEL : ℕ := 0x005

/-- Crouch action id. -/
def ACT_CROUCH : ℕ := 0x008

/-- Jump action id. -/
def ACT_JUMP : ℕ := 0x010

/-- Double jump action id. -/
def ACT_DBL_JUMP : ℕ := 0x011

/-- Triple jump action id. -/
def ACT_TRIPLE : ℕ := 0x012

/-- Backflip action id. -/
def ACT_BACKFLIP : ℕ := 0x013

/-- Long jump action id. -/
def ACT_LONG_JUMP : ℕ := 0x014

/-- Wall kick action id. -/
def ACT_WALLKICK : ℕ := 0x015

/-- Side flip action id. -/
def ACT_SIDEFLIP : ℕ := 0x016

/-- Freefall action id. -/
def ACT_FREEFALL : ℕ := 0x018

/-- Dive action id. -/
def ACT_DIVE : ℕ := 0x01A

/-- Belly slide action id. -/
def ACT_BELLY_SLIDE : ℕ := 0x01B

/-- Ground pound action id. -/
def ACT_GROUND_POUND : ℕ := 0x025

/-- Ground pound landing action id. -/
def ACT_GP_LAND : ℕ := 0x026

/-- Knockback action id. -/
def ACT_KNOCKBACK : ℕ := 0x040

/-- Lava boost action id. -/
def ACT_LAVA_BOOST : ℕ := 0x042

/-- Star dance action id. -/
def ACT_STAR_DANCE : ℕ := 0x050

/-- Death action id. -/
def ACT_DEATH : ℕ := 0x051

/-- Python float modulus: the result has the sign of the divisor, matching
a - b * floor(a / b).  Used by approach_angle and the 180-degree yaw flips. -/
def fmod (a b : ℚ) : ℚ := a - b * (⌊a / b⌋ : ℤ)

/-- approach_f32 from source lines 37-40. -/
def approach_f32 (cur tgt inc : ℚ) : ℚ :=
  if cur < tgt then min (cur + inc) tgt
  else if cur > tgt then max (cur - inc) tgt
  else cur

/-- approach_angle from source lines 41-45. -/
def approach_angle (cur tgt inc : ℚ) : ℚ :=
  let d := fmod (tgt - cur + 180) 360 - 180
  if d > inc then cur + inc
  else if d < -inc then cur - inc
  else tgt

/-- Collision surface: four vertices, a normal, a material tag, a display
color and a warp target, source lines 70-73.  All constructors in the source
build exactly four vertices, so the vertex list is embedded as four fields. -/
structure Surface where
  v0 : Vec3
  v1 : Vec3
  v2 : Vec3
  v3 : Vec3
  normal : Vec3
  stype : ℕ
  color : ℤ × ℤ × ℤ
  warp : ℤ
deriving DecidableEq

/-- Minimum x over the four vertices. -/
def Surface.minX (s : Surface) : ℚ := min (min s.v0.x s.v1.x) (min s.v2.x s.v3.x)

/-- Maximum x over the four vertices. -/
def Surface.maxX (s : Surface) : ℚ := max (max s.v0.x s.v1.x) (max s.v2.x s.v3.x)

/-- Minimum z over the four vertices. -/
def Surface.minZ (s : Surface) : ℚ := min (min s.v0.z s.v1.z) (min s.v2.z s.v3.z)

/-- Maximum z over the four vertices. -/
def Surface.maxZ (s : Surface) : ℚ := max (max s.v0.z s.v1.z) (max s.v2.z s.v3.z)

/-- Minimum y over the four vertices. -/
def Surface.minY (s : Surface) : ℚ := min (min s.v0.y s.v1.y) (min s.v2.y s.v3.y)

/-- Maximum y over the four vertices. -/
def Surface.maxY (s : Surface) : ℚ := max (max s.v0.y s.v1.y) (max s.v2.y s.v3.y)

/-- Plane height of surface s at (x, z): the value sy = d / normal.y computed
in find_floor, source lines 718-720. -/
def planeY (x z : ℚ) (s : Surface) : ℚ :=
  (-(x * s.normal.x + z * s.normal.z -
      (s.normal.x * s.v0.x + s.normal.y * s.v0.y + s.normal.z * s.v0.z))) / s.normal.y

/-- The loop body accumulator update of find_floor, source lines 712-721:
skip a surface outside the expanded bounding rectangle, skip a near-vertical
normal, otherwise record the plane height when it beats the accumulator and
sits at or below y + 150. -/
def find_floor_aux (x y z : ℚ) : List Surface → ℚ × Option Surface → ℚ × Option Surface
  | [], acc => acc
  | s :: rest, acc =>
    let acc2 :=
      if x < s.minX - 10 ∨ x > s.maxX + 10 ∨ z < s.minZ - 10 ∨ z > s.maxZ + 10 then acc
      else if |s.normal.y| < 1 / 100 then acc
      else if acc.1 < planeY x z s ∧ planeY x z s ≤ y + 150 then (planeY x z s, some s)
      else acc
    find_floor_aux x y z rest acc2

/-- find_floor from source lines 710-722, over an explicit surface list. -/
def find_floor (x y z : ℚ) (surfs : List Surface) : ℚ × Option Surface :=
  find_floor_aux x y z surfs (-11000, none)

/-- find_wall from source lines 724-735: scan wall-eligible surfaces whose
vertical extent contains y and report the first one whose signed plane
distance flips from positive to non-positive along the probe. -/
def find_wall (x y z dx dz : ℚ) : List Surface → Option Surface
  | [] => none
  | s :: rest =>
    if |s.normal.y| > 7 / 10 then find_wall x y z dx dz rest
    else if y < s.minY - 10 ∨ y > s.maxY + 10 then find_wall x y z dx dz rest
    else
      let d1 := (x - s.v0.x) * s.normal.x + (z - s.v0.z) * s.normal.z
      let d2 := (x + dx * 2 - s.v0.x) * s.normal.x + (z + dz * 2 - s.v0.z) * s.normal.z
      if d1 > 0 ∧ d2 ≤ 0 then some s else find_wall x y z dx dz rest

/-- A surface qualifies as a candidate floor at query (x, y, z): the expanded
bounding rectangle contains (x, z), the normal is floor-eligible, and the
plane height sits at or below y + 150.  This is the per-surface part of the
find_floor filter (the accumulator comparison excluded). -/
def floorQual (x y z : ℚ) (s : Surface) : Prop :=
  ¬(x < s.minX - 10 ∨ x > s.maxX + 10 ∨ z < s.minZ - 10 ∨ z > s.maxZ + 10) ∧
  ¬(|s.normal.y| < 1 / 100) ∧ planeY x z s ≤ y + 150

instance (x y z : ℚ) (s : Surface) : Decidable (floorQual x y z s) := by
  unfold floorQual; exact inferInstance

/-- The candidate floors of a surface list, in list order. -/
def floorCands (x y z : ℚ) (ss : List Surface) : List Surface :=
  ss.filter (fun s => decide (floorQual x y z s))

/-- Highest candidate plane height, the sentinel -11000 included as the
starting value of the maximum. -/
def bestFloorY (x y z : ℚ) (ss : List Surface) : ℚ :=
  (floorCands x y z ss).foldl (fun a s => max a (planeY x z s)) (-11000)

/-- Specification-level find_floor, following the claim wording: return the
maximum of the sentinel and all qualifying plane heights, together with the
first candidate attaining that maximum whenever the maximum strictly exceeds
the sentinel. -/
def findFloorSpec (x y z : ℚ) (ss : List Surface) : ℚ × Option Surface :=
  let h := bestFloorY x y z ss
  (h, if h = -11000 then none
      else (floorCands x y z ss).find? (fun s => decide (planeY x z s = h)))

/-- Generalized accumulator form of the find_floor maximum: fold max of the
qualifying plane heights over an arbitrary start value. -/
def floorFold (x y z : ℚ) (l : List Surface) (a : ℚ) : ℚ :=
  (l.filter (fun s => decide (floorQual x y z s))).foldl (fun b s => max b (planeY x z s)) a

/-- First qualifying surface whose plane height equals h, in list order. -/
def floorFind (x y z : ℚ) (l : List Surface) (h : ℚ) : Option Surface :=
  (l.filter (fun s => decide (floorQual x y z s))).find? (fun s => decide (planeY x z s = h))

/-- Input frame, source lines 63-66 (the unused raw stick coordinates are
omitted; handlers read only stick_mag and the two button masks). -/
structure Controller where
  stick_mag : ℚ
  pressed : ℕ
  down : ℕ
deriving DecidableEq

/-- MarioState, source lines 109-118.  Python ints stay integers (ℕ where the
source only ever increments or guards decrements at zero, ℤ for the health
and lives counters, which the claims quantify over); floats become ℚ. -/
structure Mario where
  pos : Vec3
  vel : Vec3
  fvel : ℚ
  face : Vec3
  action : ℕ
  prev_act : ℕ
  astate : ℕ
  atimer : ℕ
  health : ℤ
  coins : ℤ
  stars : ℤ
  lives : ℤ
  floor : Option Surface
  floor_y : ℚ
  wall : Option Surface
  imag : ℚ
  iyaw : ℚ
  peak_y : ℚ
  jcount : ℕ
  jtimer : ℕ
  wktimer : ℕ
  hurt : ℕ
  inv : ℕ
  lvl_stars : List (ℕ × List ℕ)
deriving DecidableEq

/-- set_act, source lines 120-121. -/
def Mario.set_act (m : Mario) (a : ℕ) : Mario :=
  { m with prev_act := m.action, action := a, astate := 0, atimer := 0 }

/-- heal, source line 122: clamp health above at 0x880. -/
def Mario.heal (m : Mario) (amt : ℤ) : Mario :=
  { m with health := min 0x880 (m.health + amt) }

/-- take_dmg, source lines 123-125: a no-op while the invulnerability timer
is positive, otherwise clamp health below at 0 and arm the timers. -/
def Mario.take_dmg (m : Mario) (amt : ℤ) : Mario :=
  if m.inv > 0 then m
  else { m with health := max 0 (m.health - amt), hurt := 10, inv := 60 }

/-- wedges, source line 126: (health >> 8) & 0xF.  Health is clamped
nonnegative by take_dmg, so the shift is computed on the natural part. -/
def Mario.wedges (m : Mario) : ℕ := (m.health.toNat >>> 8) &&& 0xF

/-- The star set a level maps to in the lvl_stars dictionary (empty when the
level has no entry), source line 127. -/
def lookupStars (d : List (ℕ × List ℕ)) (l : ℕ) : List ℕ :=
  match d.find? (fun p => p.1 == l) with
  | some p => p.2
  | none => []

/-- has_star, source line 127. -/
def Mario.has_star (m : Mario) (l s : ℕ) : Prop := s ∈ lookupStars m.lvl_stars l

instance (m : Mario) (l s : ℕ) : Decidable (m.has_star l s) := by
  unfold Mario.has_star; exact inferInstance

/-- Insert a star id into the set a level maps to, creating the entry when
absent (the dictionary update inside get_star, source lines 128-130). -/
def insertStar (d : List (ℕ × List ℕ)) (l s : ℕ) : List (ℕ × List ℕ) :=
  match d with
  | [] => [(l, [s])]
  | p :: rest => if p.1 = l then (l, s :: p.2) :: rest else p :: insertStar rest l s

/-- get_star, source lines 128-130: add the star id and bump the star counter
only when it was not already held. -/
def Mario.get_star (m : Mario) (l s : ℕ) : Mario :=
  if s ∈ lookupStars m.lvl_stars l then m
  else { m with lvl_stars := insertStar m.lvl_stars l s, stars := m.stars + 1 }

/-- Ambient environment: the global surface list plus the math-library
functions the handlers call (degree sin/cos, square root, degree atan2).
The claims never depend on the numeric values of these functions, so the
embedding quantifies over them. -/
structure Env where
  surfs : List Surface
  sins : ℚ → ℚ
  coss : ℚ → ℚ
  sqrtq : ℚ → ℚ
  atan2d : ℚ → ℚ → ℚ

/-- update_air, source lines 740-744: air drag on forward speed, rebuild the
horizontal velocity from the facing yaw, gravity with a fall-speed clamp. -/
def update_air (e : Env) (m : Mario) : Mario :=
  let fv := m.fvel * AIR_DRAG
  let vy := m.vel.y + GRAVITY
  let vy := if vy < MAX_FALL then MAX_FALL else vy
  { m with fvel := fv, vel := ⟨fv * e.sins m.face.y, vy, fv * e.coss m.face.y⟩ }

/-- set_fvel, source lines 746-747. -/
def set_fvel (e : Env) (m : Mario) (s : ℚ) : Mario :=
  { m with fvel := s, vel := ⟨s * e.sins m.face.y, m.vel.y, s * e.coss m.face.y⟩ }

/-- Result of the ground step, the strings of source lines 753-754. -/
inductive GRes where
  | air : GRes
  | ground : GRes
deriving DecidableEq

/-- ground_step, source lines 749-754. -/
def ground_step (e : Env) (m : Mario) : Mario × GRes :=
  let px := m.pos.x + m.vel.x
  let pz := m.pos.z + m.vel.z
  let ff := find_floor px (m.pos.y + 100) pz e.surfs
  let m1 := { m with pos := ⟨px, m.pos.y, pz⟩, floor := ff.2, floor_y := ff.1 }
  if m1.pos.y > ff.1 + 10 then (m1, .air)
  else ({ m1 with pos := ⟨px, ff.1, pz⟩ }, .ground)

/-- Result of the air step, the strings of source lines 762-765. -/
inductive StepRes where
  | land : StepRes
  | wall : StepRes
  | air : StepRes
deriving DecidableEq

/-- One iteration of the air_step loop body, source lines 758-764: advance by
the quarter displacement, re-query the floor, snap and land when at or below
it, else probe for a wall and stop with zeroed horizontal velocity on a hit. -/
def airQuarter (e : Env) (q : Vec3) (m : Mario) : Mario × Option StepRes :=
  let p := Vec3.add m.pos q
  let ff := find_floor p.x p.y p.z e.surfs
  let m1 := { m with pos := p, floor := ff.2, floor_y := ff.1 }
  if p.y ≤ ff.1 then ({ m1 with pos := ⟨p.x, ff.1, p.z⟩ }, some .land)
  else
    match find_wall p.x (p.y + 50) p.z (e.sins m.face.y) (e.coss m.face.y) e.surfs with
    | some w => ({ m1 with wall := some w, vel := ⟨0, m.vel.y, 0⟩, fvel := 0 }, some .wall)
    | none => (m1, none)

/-- The for-loop of air_step, source lines 758-765. -/
def airLoop (e : Env) (q : Vec3) : ℕ → Mario → Mario × StepRes
  | 0, m => (m, .air)
  | n + 1, m =>
    match airQuarter e q m with
    | (m1, some r) => (m1, r)
    | (m1, none) => airLoop e q n m1

/-- air_step, source lines 756-765: four equal sub-steps of vel / 4. -/
def air_step (e : Env) (m : Mario) : Mario × StepRes :=
  airLoop e ⟨m.vel.x / 4, m.vel.y / 4, m.vel.z / 4⟩ 4 m

/-- Modelled from the claim wording for the air step: the position reached
after i of the 4 equal sub-steps. -/
def subPos (m : Mario) (i : ℕ) : Vec3 :=
  ⟨m.pos.x + i * (m.vel.x / 4), m.pos.y + i * (m.vel.y / 4), m.pos.z + i * (m.vel.z / 4)⟩

/-- Does the floor query at p report a landing (position at or below the
queried floor height)? -/
def landsAt (e : Env) (p : Vec3) : Prop := p.y ≤ (find_floor p.x p.y p.z e.surfs).1

instance (e : Env) (p : Vec3) : Decidable (landsAt e p) := by
  unfold landsAt; exact inferInstance

/-- The wall probe at p for a given facing yaw. -/
def wallAt (e : Env) (yaw : ℚ) (p : Vec3) : Option Surface :=
  find_wall p.x (p.y + 50) p.z (e.sins yaw) (e.coss yaw) e.surfs

/-- Does sub-step i of the air step trigger a landing or a wall contact? -/
def airEventAt (e : Env) (m : Mario) (i : ℕ) : Bool :=
  decide (landsAt e (subPos m i)) || (wallAt e m.face.y (subPos m i)).isSome

/-- The state a landing at position p produces: position snapped down to the
queried floor height, floor fields refreshed. -/
def landState (e : Env) (m : Mario) (p : Vec3) : Mario :=
  { m with pos := ⟨p.x, (find_floor p.x p.y p.z e.surfs).1, p.z⟩,
           floor := (find_floor p.x p.y p.z e.surfs).2,
           floor_y := (find_floor p.x p.y p.z e.surfs).1 }

/-- The state a wall contact at position p produces: horizontal velocity and
forward speed zeroed, the hit surface recorded, floor fields refreshed. -/
def wallState (e : Env) (m : Mario) (p : Vec3) (w : Surface) : Mario :=
  { m with pos := p,
           floor := (find_floor p.x p.y p.z e.surfs).2,
           floor_y := (find_floor p.x p.y p.z e.surfs).1,
           wall := some w, vel := ⟨0, m.vel.y, 0⟩, fvel := 0 }

/-- The state an event-free sub-step at position p produces: only the
position and floor fields change. -/
def flyState (e : Env) (m : Mario) (p : Vec3) : Mario :=
  { m with pos := p,
           floor := (find_floor p.x p.y p.z e.surfs).2,
           floor_y := (find_floor p.x p.y p.z e.surfs).1 }

/-- Specification-level air step, following the claim wording: find the first
of the 4 sub-steps whose re-query reports a floor landing or (checked second)
a wall contact; landing snaps to the floor, a wall hit zeroes the horizontal
velocity, and only when no sub-step triggers an event is the full displacement
applied with result air. -/
def airStepSpec (e : Env) (m : Mario) : Mario × StepRes :=
  match [1, 2, 3, 4].find? (fun i => airEventAt e m i) with
  | none => (flyState e m (subPos m 4), .air)
  | some i =>
    if landsAt e (subPos m i) then (landState e m (subPos m i), .land)
    else
      match wallAt e m.face.y (subPos m i) with
      | some w => (wallState e m (subPos m i) w, .wall)
      | none => (flyState e m (subPos m i), .air)

/-- a_idle, source lines 770-776. -/
def a_idle (e : Env) (m : Mario) (c : Controller) : Mario :=
  let m := { m with fvel := 0, vel := ⟨0, m.vel.y, 0⟩ }
  if c.pressed &&& IN_A ≠ 0 then ({ m with jcount := 0 }).set_act ACT_JUMP
  else if c.pressed &&& IN_Z ≠ 0 then m.set_act ACT_CROUCH
  else if c.pressed &&& IN_B ≠ 0 then m.set_act ACT_DIVE
  else if c.stick_mag > 0 then m.set_act ACT_WALKING
  else (ground_step e m).1

/-- a_walk, source lines 778-793.  A jump press arms the 5-tick window and
bumps the consecutive-jump counter before the branch on it; a press-free
walking tick decrements the window timer while positive and resets the
counter once it has reached zero. -/
def a_walk (e : Env) (m : Mario) (c : Controller) : Mario :=
  if c.pressed &&& IN_A ≠ 0 then
    if m.fvel > 10 ∧ c.down &&& IN_Z_D ≠ 0 then m.set_act ACT_LONG_JUMP
    else
      let m := { m with jtimer := 5, jcount := m.jcount + 1 }
      if m.jcount ≥ 3 ∧ m.fvel > 15 then m.set_act ACT_TRIPLE
      else if m.jcount ≥ 2 then m.set_act ACT_DBL_JUMP
      else m.set_act ACT_JUMP
  else if c.pressed &&& IN_B ≠ 0 then m.set_act ACT_DIVE
  else if c.stick_mag = 0 then m.set_act ACT_DECEL
  else
    let m := { m with face := { m.face with y := approach_angle m.face.y m.iyaw (45 / 4) } }
    let tgt := c.stick_mag * MAX_WALK
    let fv := if m.fvel < tgt then min (m.fvel + 3 / 2) tgt else max (m.fvel - 1) tgt
    let m := set_fvel e m fv
    let gr := ground_step e m
    let m := if gr.2 = GRes.air then gr.1.set_act ACT_FREEFALL else gr.1
    if m.jtimer > 0 then { m with jtimer := m.jtimer - 1 }
    else { m with jcount := 0 }

/-- a_decel, source lines 795-800. -/
def a_decel (e : Env) (m : Mario) (c : Controller) : Mario :=
  if c.pressed &&& IN_A ≠ 0 then m.set_act (if m.fvel > 8 then ACT_SIDEFLIP else ACT_JUMP)
  else if c.stick_mag > 0 then m.set_act ACT_WALKING
  else
    let m := set_fvel e m (approach_f32 m.fvel 0 2)
    let m := if |m.fvel| < 1 / 2 then m.set_act ACT_IDLE else m
    (ground_step e m).1

/-- a_crouch, source lines 802-806. -/
def a_crouch (e : Env) (m : Mario) (c : Controller) : Mario :=
  let m := { m with fvel := 0, vel := ⟨0, m.vel.y, 0⟩ }
  if ¬(c.down &&& IN_Z_D ≠ 0) then m.set_act ACT_IDLE
  else if c.pressed &&& IN_A ≠ 0 then m.set_act ACT_BACKFLIP
  else (ground_step e m).1

/-- First-tick initialization of a_jump, source line 809. -/
def jump_init (m : Mario) : Mario :=
  if m.atimer = 0 then
    { m with vel := { m.vel with y := 42 + |m.fvel| * (1 / 4) }, peak_y := m.pos.y }
  else m

/-- a_jump, source lines 808-815. -/
def a_jump (e : Env) (m : Mario) (c : Controller) : Mario :=
  let m := jump_init m
  if c.pressed &&& IN_Z ≠ 0 then m.set_act ACT_GROUND_POUND
  else if c.pressed &&& IN_B ≠ 0 then m.set_act ACT_DIVE
  else
    let m := update_air e m
    let r := air_step e m
    let m := match r.2 with
      | .land => r.1.set_act (if c.stick_mag > 0 then ACT_WALKING else ACT_IDLE)
      | .wall => ({ r.1 with wktimer := 5 }).set_act ACT_FREEFALL
      | .air => r.1
    { m with atimer := m.atimer + 1 }

/-- First-tick initialization of a_dbl, source line 818. -/
def dbl_init (m : Mario) : Mario :=
  if m.atimer = 0 then
    { m with vel := { m.vel with y := 52 + |m.fvel| * (1 / 5) }, peak_y := m.pos.y }
  else m

/-- a_dbl, source lines 817-824. -/
def a_dbl (e : Env) (m : Mario) (c : Controller) : Mario :=
  let m := dbl_init m
  if c.pressed &&& IN_Z ≠ 0 then m.set_act ACT_GROUND_POUND
  else if c.pressed &&& IN_B ≠ 0 then m.set_act ACT_DIVE
  else
    let m := update_air e m
    let r := air_step e m
    let m := match r.2 with
      | .land => r.1.set_act (if c.stick_mag > 0 then ACT_WALKING else ACT_IDLE)
      | .wall => ({ r.1 with wktimer := 5 }).set_act ACT_FREEFALL
      | .air => r.1
    { m with atimer := m.atimer + 1 }

/-- First-tick initialization of a_triple, source line 827: the vertical
velocity is the constant 69, independent of forward speed. -/
def triple_init (m : Mario) : Mario :=
  if m.atimer = 0 then { m with vel := { m.vel with y := 69 }, peak_y := m.pos.y } else m

/-- a_triple, source lines 826-831 (no wall branch). -/
def a_triple (e : Env) (m : Mario) (c : Controller) : Mario :=
  let m := triple_init m
  if c.pressed &&& IN_Z ≠ 0 then m.set_act ACT_GROUND_POUND
  else
    let m := update_air e m
    let r := air_step e m
    let m := match r.2 with
      | .land => r.1.set_act (if c.stick_mag > 0 then ACT_WALKING else ACT_IDLE)
      | _ => r.1
    { m with atimer := m.atimer + 1 }

/-- First-tick initialization of a_backflip, source line 834. -/
def backflip_init (e : Env) (m : Mario) : Mario :=
  if m.atimer = 0 then set_fvel e { m with vel := { m.vel with y := 62 } } (-10) else m

/-- a_backflip, source lines 833-837: landing zeroes forward speed and always
enters idle. -/
def a_backflip (e : Env) (m : Mario) (c : Controller) : Mario :=
  let m := backflip_init e m
  let m := update_air e m
  let r := air_step e m
  let m := match r.2 with
    | .land => ({ r.1 with fvel := 0 }).set_act ACT_IDLE
    | _ => r.1
  { m with atimer := m.atimer + 1 }

/-- First-tick initialization of a_sideflip, source line 840. -/
def sideflip_init (e : Env) (m : Mario) : Mario :=
  if m.atimer = 0 then
    set_fvel e { m with vel := { m.vel with y := 62 },
                        face := { m.face with y := fmod (m.face.y + 180) 360 } } 8
  else m

/-- a_sideflip, source lines 839-843: landing always enters idle. -/
def a_sideflip (e : Env) (m : Mario) (c : Controller) : Mario :=
  let m := sideflip_init e m
  let m := update_air e m
  let r := air_step e m
  let m := match r.2 with
    | .land => r.1.set_act ACT_IDLE
    | _ => r.1
  { m with atimer := m.atimer + 1 }

/-- First-tick initialization of a_longjump, source line 846. -/
def longjump_init (e : Env) (m : Mario) : Mario :=
  if m.atimer = 0 then
    set_fvel e { m with vel := { m.vel with y := 30 } } (min (m.fvel * (3 / 2)) 48)
  else m

/-- a_longjump, source lines 845-849: landing zeroes forward speed and always
enters idle. -/
def a_longjump (e : Env) (m : Mario) (c : Controller) : Mario :=
  let m := longjump_init e m
  let m := update_air e m
  let r := air_step e m
  let m := match r.2 with
    | .land => ({ r.1 with fvel := 0 }).set_act ACT_IDLE
    | _ => r.1
  { m with atimer := m.atimer + 1 }

/-- a_freefall, source lines 851-861. -/
def a_freefall (e : Env) (m : Mario) (c : Controller) : Mario :=
  if c.pressed &&& IN_A ≠ 0 ∧ m.wktimer > 0 then
    let m := { m with face := { m.face with y := fmod (m.face.y + 180) 360 } }
    (set_fvel e m 24).set_act ACT_WALLKICK
  else if c.pressed &&& IN_Z ≠ 0 then m.set_act ACT_GROUND_POUND
  else if c.pressed &&& IN_B ≠ 0 then m.set_act ACT_DIVE
  else
    let m := update_air e m
    let r := air_step e m
    let m := match r.2 with
      | .land => r.1.set_act (if c.stick_mag > 0 then ACT_WALKING else ACT_IDLE)
      | .wall => { r.1 with wktimer := 5 }
      | .air => r.1
    let m := if m.wktimer > 0 then { m with wktimer := m.wktimer - 1 } else m
    { m with atimer := m.atimer + 1 }

/-- First-tick initialization of a_wallkick, source line 864. -/
def wallkick_init (m : Mario) : Mario :=
  if m.atimer = 0 then { m with vel := { m.vel with y := 52 } } else m

/-- a_wallkick, source lines 863-867. -/
def a_wallkick (e : Env) (m : Mario) (c : Controller) : Mario :=
  let m := wallkick_init m
  let m := update_air e m
  let r := air_step e m
  let m := match r.2 with
    | .land => r.1.set_act (if c.stick_mag > 0 then ACT_WALKING else ACT_IDLE)
    | _ => r.1
  { m with atimer := m.atimer + 1 }

/-- First-tick initialization of a_dive, source line 870. -/
def dive_init (e : Env) (m : Mario) : Mario :=
  if m.atimer = 0 then
    set_fvel e { m with vel := { m.vel with y := 10 } } (max m.fvel 32)
  else m

/-- a_dive, source lines 869-873: landing enters the belly slide. -/
def a_dive (e : Env) (m : Mario) (c : Controller) : Mario :=
  let m := dive_init e m
  let m := update_air e m
  let r := air_step e m
  let m := match r.2 with
    | .land => r.1.set_act ACT_BELLY_SLIDE
    | _ => r.1
  { m with atimer := m.atimer + 1 }

/-- a_belly, source lines 875-879. -/
def a_belly (e : Env) (m : Mario) (c : Controller) : Mario :=
  if c.pressed &&& IN_A ≠ 0 then m.set_act ACT_JUMP
  else
    let m := set_fvel e m (approach_f32 m.fvel 0 1)
    let m := if |m.fvel| < 1 then m.set_act ACT_IDLE else m
    (ground_step e m).1

/-- a_gp, source lines 881-887: a hover phase of 11 ticks, then a plunge whose
air step ends in the ground-pound landing recovery. -/
def a_gp (e : Env) (m : Mario) (c : Controller) : Mario :=
  if m.astate = 0 then
    let m := { m with fvel := 0, vel := ⟨0, 0, 0⟩, atimer := m.atimer + 1 }
    if m.atimer > 10 then { m with astate := 1, vel := ⟨0, -60, 0⟩ } else m
  else
    let r := air_step e m
    match r.2 with
    | .land => r.1.set_act ACT_GP_LAND
    | _ => r.1

/-- a_gpl, source lines 889-894. -/
def a_gpl (e : Env) (m : Mario) (c : Controller) : Mario :=
  let m := { m with atimer := m.atimer + 1 }
  if m.atimer > 5 then
    if c.pressed &&& IN_A ≠ 0 then m.set_act ACT_JUMP
    else if c.stick_mag > 0 then m.set_act ACT_WALKING
    else if m.atimer > 15 then m.set_act ACT_IDLE
    else m
  else m

/-- First-tick initialization of a_knock, source line 897. -/
def knock_init (e : Env) (m : Mario) : Mario :=
  if m.atimer = 0 then set_fvel e { m with vel := { m.vel with y := 30 } } (-20) else m

/-- a_knock, source lines 896-900: landing zeroes forward speed and always
enters idle. -/
def a_knock (e : Env) (m : Mario) (c : Controller) : Mario :=
  let m := knock_init e m
  let m := update_air e m
  let r := air_step e m
  let m := match r.2 with
    | .land => ({ r.1 with fvel := 0 }).set_act ACT_IDLE
    | _ => r.1
  { m with atimer := m.atimer + 1 }

/-- First-tick initialization of a_lava, source line 903: launch upward,
zero the horizontal velocity and apply one wedge of damage. -/
def lava_init (m : Mario) : Mario :=
  if m.atimer = 0 then ({ m with vel := ⟨0, 60, 0⟩, fvel := 0 }).take_dmg 0x100 else m

/-- a_lava, source lines 902-906: landing always enters idle. -/
def a_lava (e : Env) (m : Mario) (c : Controller) : Mario :=
  let m := lava_init m
  let m := update_air e m
  let r := air_step e m
  let m := match r.2 with
    | .land => r.1.set_act ACT_IDLE
    | _ => r.1
  { m with atimer := m.atimer + 1 }

/-- a_star, source lines 908-910. -/
def a_star (e : Env) (m : Mario) (c : Controller) : Mario :=
  let m := { m with fvel := 0, vel := ⟨0, 0, 0⟩, atimer := m.atimer + 1 }
  if m.atimer > 90 then m.set_act ACT_IDLE else m

/-- a_death, source lines 912-913. -/
def a_death (e : Env) (m : Mario) (c : Controller) : Mario :=
  let vy := max (m.vel.y + GRAVITY) MAX_FALL
  { m with fvel := 0, vel := ⟨0, vy, 0⟩, pos := { m.pos with y := m.pos.y + vy } }

/-- The type of an action handler. -/
def Handler : Type := Env → Mario → Controller → Mario

/-- ACT_MAP, source lines 915-922: the dispatch table from action ids to
handlers. -/
def ACT_MAP : List (ℕ × Handler) := [
  (ACT_IDLE, a_idle), (ACT_WALKING, a_walk), (ACT_DECEL, a_decel), (ACT_CROUCH, a_crouch),
  (ACT_JUMP, a_jump), (ACT_DBL_JUMP, a_dbl), (ACT_TRIPLE, a_triple), (ACT_BACKFLIP, a_backflip),
  (ACT_SIDEFLIP, a_sideflip), (ACT_LONG_JUMP, a_longjump), (ACT_WALLKICK, a_wallkick),
  (ACT_FREEFALL, a_freefall), (ACT_DIVE, a_dive), (ACT_BELLY_SLIDE, a_belly),
  (ACT_GROUND_POUND, a_gp), (ACT_GP_LAND, a_gpl), (ACT_KNOCKBACK, a_knock),
  (ACT_LAVA_BOOST, a_lava), (ACT_STAR_DANCE, a_star), (ACT_DEATH, a_death)]

/-- The per-tick action dispatch of main, source line 1231:
ACT_MAP.get(mario.action, a_idle) applied to the state and input. -/
def act_dispatch (e : Env) (m : Mario) (c : Controller) : Mario :=
  ((ACT_MAP.lookup m.action).getD a_idle) e m c

/-- Secondary-actor type tags, source lines 75-80. -/
inductive ObjType where
  | COIN | COIN_RED | COIN_BLUE | STAR
  | GOOMBA | BOBOMB | BULLY | BOO
  | PIRANHA | KOOPA | AMP | THWOMP
  | CHAIN_CHOMP | KING_BOB | BIG_BOO | BOWSER
  | ONE_UP | TREE | PIPE | BOX
deriving DecidableEq

/-- Secondary actor, source lines 82-89. -/
structure Obj where
  type : ObjType
  pos : Vec3
  vel : Vec3
  angle : ℚ
  radius : ℚ
  height : ℚ
  hp : ℤ
  active : Bool
  timer : ℤ
  state : ℤ
  home : Vec3
  color : ℤ × ℤ × ℤ
  collected : Bool
  irange : ℚ
  scale : ℚ
  dmg : ℤ
  coins : ℤ
  star_id : ℕ
  warp : ℤ
  spd : ℚ
  pdir : ℤ
  bob : ℚ
  flash : ℤ
deriving DecidableEq

/-- Processing of one actor by the interaction loop body, source lines
993-1034.  Particle emission (randomized, purely visual, touching neither the
Mario state nor the actor list) is not modelled.  The third component is the
warp request that aborts the loop when a pipe is entered. -/
def interact_one (e : Env) (c : Controller) (lvl : ℕ) (m : Mario) (o : Obj) :
    Mario × Obj × Option ℤ :=
  if ¬o.active ∨ o.collected then (m, o, none)
  else
    let dx := m.pos.x - o.pos.x
    let dy := m.pos.y - o.pos.y
    let dz := m.pos.z - o.pos.z
    let d := e.sqrtq (dx * dx + dy * dy + dz * dz)
    if d > o.irange + 30 then (m, o, none)
    else match o.type with
    | .COIN | .COIN_RED | .COIN_BLUE =>
      (({ m with coins := m.coins + o.coins }).heal (0x40 * o.coins),
       { o with collected := true, active := false }, none)
    | .STAR =>
      if ¬m.has_star lvl o.star_id then
        ((m.get_star lvl o.star_id).set_act ACT_STAR_DANCE,
         { o with collected := true, active := false }, none)
      else (m, o, none)
    | .ONE_UP =>
      ({ m with lives := m.lives + 1 }, { o with collected := true, active := false }, none)
    | .PIPE =>
      if c.pressed &&& IN_A ≠ 0 then (m, o, some o.warp) else (m, o, none)
    | .GOOMBA | .BOBOMB | .KOOPA | .PIRANHA =>
      if m.vel.y < -5 ∧ m.pos.y > o.pos.y + 20 then
        ({ m with vel := { m.vel with y := 30 }, coins := m.coins + 1 },
         { o with active := false }, none)
      else if m.action = ACT_DIVE ∨ m.action = ACT_GP_LAND then
        ({ m with coins := m.coins + 1 }, { o with active := false }, none)
      else ((m.take_dmg (0x100 * o.dmg)).set_act ACT_KNOCKBACK, o, none)
    | .BULLY =>
      if d < o.irange then
        ({ m with pos := ⟨m.pos.x + dx / max d 1 * 20, m.pos.y, m.pos.z + dz / max d 1 * 20⟩,
                  fvel := 15 }, o, none)
      else (m, o, none)
    | .BOO | .BIG_BOO =>
      let fb := |e.atan2d (o.pos.x - m.pos.x) (o.pos.z - m.pos.z) - m.face.y| > 90
      if fb ∧ (m.action = ACT_GROUND_POUND ∨ m.action = ACT_GP_LAND) then
        let o1 := { o with hp := o.hp - 1, flash := 10 }
        if o1.hp ≤ 0 then (m, { o1 with active := false }, none) else (m, o1, none)
      else if ¬fb ∧ d < o.irange then ((m.take_dmg 0x100).set_act ACT_KNOCKBACK, o, none)
      else (m, o, none)
    | .AMP => ((m.take_dmg 0x100).set_act ACT_KNOCKBACK, o, none)
    | .THWOMP =>
      if o.state = 1 ∧ d < o.irange then ((m.take_dmg 0x200).set_act ACT_KNOCKBACK, o, none)
      else (m, o, none)
    | .CHAIN_CHOMP => ((m.take_dmg 0x300).set_act ACT_KNOCKBACK, o, none)
    | .KING_BOB | .BOWSER =>
      if m.vel.y < -5 ∧ m.pos.y > o.pos.y + 30 then
        let o1 := { o with hp := o.hp - 1, flash := 15 }
        let m1 := { m with vel := { m.vel with y := 40 } }
        if o1.hp ≤ 0 then (m1, { o1 with active := false }, none) else (m1, o1, none)
      else ((m.take_dmg 0x200).set_act ACT_KNOCKBACK, o, none)
    | .TREE | .BOX => (m, o, none)

/-- interact_objs, source lines 992-1035: process the actors in list order,
threading the Mario state; a pipe warp returns immediately, leaving the
remaining actors untouched. -/
def interact_objs (e : Env) (c : Controller) (lvl : ℕ) :
    Mario → List Obj → Mario × List Obj × Option ℤ
  | m, [] => (m, [], none)
  | m, o :: rest =>
    match interact_one e c lvl m o with
    | (m1, o1, some w) => (m1, o1 :: rest, some w)
    | (m1, o1, none) =>
      match interact_objs e c lvl m1 rest with
      | (m2, rest2, w2) => (m2, o1 :: rest2, w2)

/-- A projected polygon as assembled by render, source lines 1071-1082:
mean depth, fogged color, screen points, and the kind tag of the source
geometry. -/
structure RPoly where
  depth : ℚ
  color : ℤ × ℤ × ℤ
  pts : List (ℚ × ℚ)
  tag : ℕ
deriving DecidableEq

/-- The painter-algorithm ordering step of render, source line 1083:
polys.sort(key depth, reverse) is a stable sort by descending mean depth, and
the subsequent draw loop paints in exactly this list order.  Stable sorts of
a list under a fixed total preorder are unique, so Python Timsort is embedded
as a merge sort under the descending-depth comparison. -/
def render_sort (ps : List RPoly) : List RPoly :=
  ps.mergeSort (fun a b => decide (b.depth ≤ a.depth))

/-- One health-mutating call: either heal(amt) or take_dmg(amt). -/
inductive HealthOp where
  | heal (amt : ℤ)
  | dmg (amt : ℤ)
deriving DecidableEq

/-- Apply one health-mutating call to the Mario state. -/
def applyHealthOp (m : Mario) : HealthOp → Mario
  | .heal a => m.heal a
  | .dmg a => m.take_dmg a

/-- Apply a sequence of health-mutating calls in order. -/
def applyHealthOps (m : Mario) (ops : List HealthOp) : Mario :=
  ops.foldl applyHealthOp m

/-- The amount carried by a health-mutating call. -/
def HealthOp.amt : HealthOp → ℤ
  | .heal a => a
  | .dmg a => a

/-- A default Mario state matching the Python dataclass defaults, used as the
base of the concrete test states below. -/
def mario0 : Mario :=
  { pos := ⟨0, 0, 0⟩, vel := ⟨0, 0, 0⟩, fvel := 0, face := ⟨0, 0, 0⟩,
    action := ACT_IDLE, prev_act := ACT_IDLE, astate := 0, atimer := 0,
    health := 0x880, coins := 0, stars := 0, lives := 4,
    floor := none, floor_y := -10000, wall := none, imag := 0, iyaw := 0,
    peak_y := 0, jcount := 0, jtimer := 0, wktimer := 0, hurt := 0, inv := 0,
    lvl_stars := [] }

/-- A flat 2000 x 2000 ground quad at height 0 (the shape make_ground builds). -/
def groundS : Surface :=
  { v0 := ⟨-1000, 0, -1000⟩, v1 := ⟨1000, 0, -1000⟩, v2 := ⟨1000, 0, 1000⟩,
    v3 := ⟨-1000, 0, 1000⟩, normal := ⟨0, 1, 0⟩, stype := 0,
    color := (200, 200, 200), warp := -1 }

/-- A flat ground quad at height -12000, below the find_floor sentinel. -/
def deepS : Surface :=
  { v0 := ⟨-100, -12000, -100⟩, v1 := ⟨100, -12000, -100⟩, v2 := ⟨100, -12000, 100⟩,
    v3 := ⟨-100, -12000, 100⟩, normal := ⟨0, 1, 0⟩, stype := 0,
    color := (200, 200, 200), warp := -1 }

/-- An environment with no surfaces and trivial math-library stand-ins. -/
def env0 : Env :=
  { surfs := [], sins := fun _ => 0, coss := fun _ => 1,
    sqrtq := fun _ => 0, atan2d := fun _ _ => 0 }

/-- An environment whose world is the single flat ground quad. -/
def envG : Env :=
  { surfs := [groundS], sins := fun _ => 0, coss := fun _ => 1,
    sqrtq := fun _ => 0, atan2d := fun _ _ => 0 }

/-- An input frame with the stick pushed and no buttons. -/
def ctrl1 : Controller := { stick_mag := 1, pressed := 0, down := 0 }

/-- The neutral input frame. -/
def ctrl0 : Controller := { stick_mag := 0, pressed := 0, down := 0 }

/-- A backflip state one tick after launch, half a unit above the ground and
falling: its next air step lands. -/
def m_bf : Mario :=
  { mario0 with action := ACT_BACKFLIP, atimer := 1, pos := ⟨0, 1 / 2, 0⟩,
                vel := ⟨0, 2, 0⟩ }

/-- A dive state one tick after launch, half a unit above the ground and
falling: its next air step lands. -/
def m_dv : Mario :=
  { mario0 with action := ACT_DIVE, atimer := 1, pos := ⟨0, 1 / 2, 0⟩,
                vel := ⟨0, 2, 0⟩ }

/-- A coin actor sitting at the origin (within collection range of mario0). -/
def coin0 : Obj :=
  { type := .COIN, pos := ⟨0, 0, 0⟩, vel := ⟨0, 0, 0⟩, angle := 0, radius := 30,
    height := 30, hp := 1, active := true, timer := 0, state := 0,
    home := ⟨0, 0, 0⟩, color := (255, 215, 0), collected := false, irange := 60,
    scale := 1, dmg := 1, coins := 1, star_id := 0, warp := -1, spd := 3 / 2,
    pdir := 1, bob := 0, flash := 0 }

/-- A star actor with star id 0 sitting at the origin. -/
def star0 : Obj :=
  { coin0 with type := .STAR, irange := 80, coins := 0, star_id := 0 }

/-! ## Theorems -/

theorem le_foldl_max (f : Surface → ℚ) (l : List Surface) (a : ℚ) :
    a ≤ l.foldl (fun b s => max b (f s)) a := by
  induction l generalizing a with
  | nil => simp
  | cons s rest ih =>
    simpa using le_trans (le_max_left a (f s)) (ih (max a (f s)))

theorem foldl_max_le (f : Surface → ℚ) (l : List Surface) (a c : ℚ)
    (ha : a ≤ c) (hf : ∀ s ∈ l, f s ≤ c) :
    l.foldl (fun b s => max b (f s)) a ≤ c := by
  induction l generalizing a with
  | nil => simpa using ha
  | cons s rest ih =>
    simp only [List.foldl_cons]
    exact ih (max a (f s)) (max_le ha (hf s (List.mem_cons_self s rest)))
      (fun t ht => hf t (List.mem_cons_of_mem s ht))

theorem find_floor_aux_spec (x y z : ℚ) (l : List Surface) (a : ℚ) (o : Option Surface) :
    find_floor_aux x y z l (a, o) =
      (floorFold x y z l a,
       if a < floorFold x y z l a then floorFind x y z l (floorFold x y z l a) else o) := by
  induction l generalizing a o with
  | nil => simp [find_floor_aux, floorFold, floorFind]
  | cons s rest ih =>
    by_cases hrect : x < s.minX - 10 ∨ x > s.maxX + 10 ∨ z < s.minZ - 10 ∨ z > s.maxZ + 10
    · have hq : decide (floorQual x y z s) = false := by
        rw [decide_eq_false_iff_not]
        unfold floorQual
        exact fun h2 => h2.1 hrect
      simp only [find_floor_aux, if_pos hrect]
      rw [ih a o]
      simp [floorFold, floorFind, List.filter_cons, hq]
    · by_cases hthin : |s.normal.y| < 1 / 100
      · have hq : decide (floorQual x y z s) = false := by
          rw [decide_eq_false_iff_not]
          unfold floorQual
          exact fun h2 => h2.2.1 hthin
        simp only [find_floor_aux, if_neg hrect, if_pos hthin]
        rw [ih a o]
        simp [floorFold, floorFind, List.filter_cons, hq]
      · by_cases hle : planeY x z s ≤ y + 150
        · have hq : decide (floorQual x y z s) = true := by
            rw [decide_eq_true_eq]
            unfold floorQual
            exact ⟨hrect, hthin, hle⟩
          have hfold : floorFold x y z (s :: rest) a = floorFold x y z rest (max a (planeY x z s)) := by
            simp [floorFold, List.filter_cons, hq]
          have hfind : ∀ h : ℚ, floorFind x y z (s :: rest) h =
              (if planeY x z s = h then some s else floorFind x y z rest h) := by
            intro h
            by_cases he : planeY x z s = h
            · simp [floorFind, List.filter_cons, hq, List.find?_cons, he]
            · simp [floorFind, List.filter_cons, hq, List.find?_cons, he]
          by_cases hlt : a < planeY x z s
          · simp only [find_floor_aux, if_neg hrect, if_neg hthin, if_pos (And.intro hlt hle)]
            rw [ih (planeY x z s) (some s)]
            have hmax : max a (planeY x z s) = planeY x z s := max_eq_right hlt.le
            rw [hfold, hmax]
            have hsy : planeY x z s ≤ floorFold x y z rest (planeY x z s) := by
              have := le_foldl_max (fun s2 => planeY x z s2)
                (rest.filter (fun s2 => decide (floorQual x y z s2))) (planeY x z s)
              simpa [floorFold] using this
            have haF : a < floorFold x y z rest (planeY x z s) := lt_of_lt_of_le hlt hsy
            rw [if_pos haF, hfind]
            by_cases heq : planeY x z s = floorFold x y z rest (planeY x z s)
            · rw [if_pos heq, if_neg (by rw [← heq]; exact lt_irrefl _)]
            · rw [if_neg heq, if_pos (lt_of_le_of_ne hsy heq)]
          · have hnot : ¬(a < planeY x z s ∧ planeY x z s ≤ y + 150) := fun h2 => hlt h2.1
            simp only [find_floor_aux, if_neg hrect, if_neg hthin, if_neg hnot]
            rw [ih a o]
            have hmax : max a (planeY x z s) = a := max_eq_left (not_lt.mp hlt)
            rw [hfold, hmax]
            by_cases haF : a < floorFold x y z rest a
            · have hsyne : planeY x z s ≠ floorFold x y z rest a := by
                have : planeY x z s ≤ a := not_lt.mp hlt
                exact ne_of_lt (lt_of_le_of_lt this haF)
              rw [if_pos haF, if_pos haF, hfind, if_neg hsyne]
            · rw [if_neg haF, if_neg haF]
        · have hq : decide (floorQual x y z s) = false := by
            rw [decide_eq_false_iff_not]
            unfold floorQual
            exact fun h2 => hle h2.2.2
          have hnot : ¬(a < planeY x z s ∧ planeY x z s ≤ y + 150) := fun h2 => hle h2.2
          simp only [find_floor_aux, if_neg hrect, if_neg hthin, if_neg hnot]
          rw [ih a o]
          simp [floorFold, floorFind, List.filter_cons, hq]

/-- Claim C1 (amended): find_floor returns the maximum of the sentinel height
-11000 and the plane heights of all qualifying surfaces (expanded bounding
rectangle containing (x, z), floor-eligible normal, height at or below
y + 150), and the returned surface is the first qualifying surface attaining
that maximum whenever the maximum strictly exceeds the sentinel, otherwise no
surface.  In particular ties at equal height resolve to the first surface in
list order, and when no surface qualifies the sentinel pair is returned. -/
theorem find_floor_matches_spec (x y z : ℚ) (ss : List Surface) :
    find_floor x y z ss = findFloorSpec x y z ss := by
  rw [find_floor, find_floor_aux_spec]
  have hbe : bestFloorY x y z ss = floorFold x y z ss (-11000) := rfl
  have hle2 : (-11000 : ℚ) ≤ floorFold x y z ss (-11000) := by
    have := le_foldl_max (fun s2 => planeY x z s2)
      (ss.filter (fun s2 => decide (floorQual x y z s2))) (-11000)
    simpa [floorFold] using this
  rw [findFloorSpec]
  by_cases hF : floorFold x y z ss (-11000) = -11000
  · rw [if_neg (by rw [hF]; exact lt_irrefl _), hbe, if_pos hF]
  · rw [if_pos (lt_of_le_of_ne hle2 (Ne.symm hF)), hbe, if_neg hF]
    rfl

/-- Claim C1 counterexample: a qualifying floor whose plane height -12000 lies
below the sentinel start value is never recorded, so find_floor returns the
sentinel pair (-11000, no surface) instead of the maximum qualifying plane
height -12000 together with its surface, refuting the claim as stated. -/
theorem find_floor_cex_below_sentinel :
    floorQual 0 0 0 deepS ∧ planeY 0 0 deepS = -12000 ∧
    find_floor 0 0 0 [deepS] = (-11000, none) := by
  norm_num [floorQual, find_floor, find_floor_aux, deepS, planeY,
    Surface.minX, Surface.maxX, Surface.minZ, Surface.maxZ]

/-- Claim C9 (amended): the height returned by find_floor never exceeds the
maximum of the sentinel -11000 and y + 150; in particular every non-sentinel
height is at most y + 150, but for query heights below -11150 the sentinel
itself exceeds y + 150. -/
theorem find_floor_height_le (x y z : ℚ) (ss : List Surface) :
    (find_floor x y z ss).1 ≤ max (-11000) (y + 150) := by
  rw [find_floor, find_floor_aux_spec]
  refine foldl_max_le _ _ _ _ (le_max_left _ _) ?_
  intro s hs
  have hq := of_decide_eq_true (List.mem_filter.mp hs).2
  exact le_trans hq.2.2 (le_max_right _ _)

/-- Claim C9 counterexample: with no surfaces and query height -20000,
find_floor returns the sentinel -11000, which is greater than
query height + 150 = -19850, refuting the claim for the sentinel case. -/
theorem find_floor_cex_sentinel_above :
    find_floor 0 (-20000) 0 [] = (-11000, none) ∧ ¬((-11000 : ℚ) ≤ -20000 + 150) := by
  norm_num [find_floor, find_floor_aux]

/-- Claim C5: all damage passes through the invulnerability gate.  With the
timer positive take_dmg changes nothing at all; composing two calls with no
intervening decrement equals the first call alone (the first applying call
arms the timer to 60, making the second a no-op); and health stays
nonnegative. -/
theorem take_dmg_gate (m : Mario) (a b : ℤ) :
    (m.inv > 0 → m.take_dmg a = m) ∧
    ((m.take_dmg a).take_dmg b = m.take_dmg a) ∧
    (0 ≤ m.health → 0 ≤ (m.take_dmg a).health) := by
  refine ⟨?_, ?_, ?_⟩
  · intro h
    simp [Mario.take_dmg, h]
  · by_cases h : m.inv > 0
    · simp [Mario.take_dmg, h]
    · simp [Mario.take_dmg, h]
  · intro h0
    by_cases h : m.inv > 0
    · simpa [Mario.take_dmg, h] using h0
    · simp [Mario.take_dmg, h]

/-- Witness for the damage gate at concrete inputs. -/
theorem take_dmg_gate_witness :
    (({ mario0 with inv := 30 } : Mario).take_dmg 5 = { mario0 with inv := 30 }) ∧
    ((mario0.take_dmg 3).take_dmg 7 = mario0.take_dmg 3) ∧
    0 ≤ (mario0.take_dmg 3).health :=
  ⟨(take_dmg_gate { mario0 with inv := 30 } 5 0).1 (by decide),
   (take_dmg_gate mario0 3 7).2.1,
   (take_dmg_gate mario0 3 0).2.2 (by decide)⟩

/-- Claim C3: the per-tick dispatch is total.  For every action id (the
unmapped ones included) and every input frame the dispatch produces exactly
one next state, and an action id with no entry in ACT_MAP is handled by the
idle handler.  The embedding is a total function, so no exception can occur. -/
theorem act_dispatch_total (e : Env) (m : Mario) (c : Controller) :
    (∃! m2 : Mario, act_dispatch e m c = m2) ∧
    (ACT_MAP.lookup m.action = none → act_dispatch e m c = a_idle e m c) := by
  refine ⟨⟨act_dispatch e m c, rfl, fun y hy => hy.symm⟩, ?_⟩
  intro h
  unfold act_dispatch
  rw [h]
  rfl

/-- Witness for dispatch totality: action id 2 has no table entry and is
dispatched to the idle handler. -/
theorem act_dispatch_total_witness :
    act_dispatch env0 { mario0 with action := 2 } ctrl0 =
      a_idle env0 { mario0 with action := 2 } ctrl0 :=
  (act_dispatch_total env0 { mario0 with action := 2 } ctrl0).2 rfl

/-- Claim C7: the renderer draws visible faces far-to-near.  The depth sort
is descending (for any two faces the deeper one is drawn first), it permutes
the visible faces, and it is stable: the faces of any fixed mean depth keep
their original insertion order. -/
theorem render_sort_painter (ps : List RPoly) :
    List.Pairwise (fun a b => b.depth ≤ a.depth) (render_sort ps) ∧
    List.Perm (render_sort ps) ps ∧
    ∀ d : ℚ, (render_sort ps).filter (fun p => decide (p.depth = d)) =
      ps.filter (fun p => decide (p.depth = d)) := by
  have htrans : ∀ a b c : RPoly, (decide (b.depth ≤ a.depth)) = true →
      (decide (c.depth ≤ b.depth)) = true → (decide (c.depth ≤ a.depth)) = true := by
    intro a b c h1 h2
    simp only [decide_eq_true_eq] at h1 h2 ⊢
    exact le_trans h2 h1
  have htot : ∀ a b : RPoly,
      ((decide (b.depth ≤ a.depth)) || (decide (a.depth ≤ b.depth))) = true := by
    intro a b
    simpa using le_total b.depth a.depth
  refine ⟨?_, List.mergeSort_perm ps _, ?_⟩
  · have := List.sorted_mergeSort htrans htot ps
    exact this.imp (fun h => of_decide_eq_true h)
  · intro d
    have hmem : ∀ q ∈ ps.filter (fun p => decide (p.depth = d)), q.depth = d := by
      intro q hq
      exact of_decide_eq_true (List.mem_filter.mp hq).2
    have hpair : (ps.filter (fun p => decide (p.depth = d))).Pairwise
        (fun a b => (decide (b.depth ≤ a.depth)) = true) := by
      refine List.pairwise_of_forall_mem_list ?_
      intro a ha b hb
      rw [hmem a ha, hmem b hb]
      simp
    have hsub : (ps.filter (fun p => decide (p.depth = d))).Sublist (render_sort ps) :=
      List.mergeSort_stable htrans htot hpair (List.filter_sublist ps)
    have hsub2 : (ps.filter (fun p => decide (p.depth = d))).Sublist
        ((render_sort ps).filter (fun p => decide (p.depth = d))) := by
      have := hsub.filter (fun p => decide (p.depth = d))
      simpa [List.filter_filter] using this
    have hlen : ((render_sort ps).filter (fun p => decide (p.depth = d))).length =
        (ps.filter (fun p => decide (p.depth = d))).length :=
      ((List.mergeSort_perm ps _).filter _).length_eq
    exact (hsub2.eq_of_length hlen.symm).symm

/-- The wedge display of any clamped health value lies in the 0..8 range. -/
theorem wedges_le_eight (m : Mario) (h1 : m.health ≤ 0x880) : m.wedges ≤ 8 := by
  have h2 : m.health.toNat ≤ 2176 := by
    have := Int.toNat_le_toNat h1
    simpa using this
  have h3 : m.health.toNat >>> 8 ≤ 8 := by
    rw [Nat.shiftRight_eq_div_pow]
    calc m.health.toNat / 2 ^ 8 ≤ 2176 / 2 ^ 8 := Nat.div_le_div_right h2
    _ = 8 := by norm_num
  calc m.wedges ≤ m.health.toNat >>> 8 := Nat.and_le_left
  _ ≤ 8 := h3

/-- Claim C10: starting from any health in [0, 0x880], every sequence of heal
and take_dmg calls (with the nonnegative amounts the program passes) keeps
health within [0, 0x880], and the displayed wedge count stays between 0
and 8. -/
theorem health_invariant (m : Mario) (ops : List HealthOp)
    (h0 : 0 ≤ m.health) (h1 : m.health ≤ 0x880)
    (hops : ∀ op ∈ ops, 0 ≤ op.amt) :
    0 ≤ (applyHealthOps m ops).health ∧ (applyHealthOps m ops).health ≤ 0x880 ∧
    (applyHealthOps m ops).wedges ≤ 8 := by
  suffices h : 0 ≤ (applyHealthOps m ops).health ∧ (applyHealthOps m ops).health ≤ 0x880 by
    exact ⟨h.1, h.2, wedges_le_eight _ h.2⟩
  induction ops generalizing m with
  | nil => exact ⟨h0, h1⟩
  | cons op rest ih =>
    have hop : 0 ≤ op.amt := hops op (List.mem_cons_self op rest)
    have hstep : 0 ≤ (applyHealthOp m op).health ∧ (applyHealthOp m op).health ≤ 0x880 := by
      cases op with
      | heal a =>
        constructor
        · exact le_min (by norm_num) (add_nonneg h0 hop)
        · exact min_le_left _ _
      | dmg a =>
        by_cases hinv : m.inv > 0
        · simpa [applyHealthOp, Mario.take_dmg, hinv] using And.intro h0 h1
        · refine ⟨?_, ?_⟩
          · simp [applyHealthOp, Mario.take_dmg, hinv]
          · simp only [applyHealthOp, Mario.take_dmg, hinv, if_false]
            exact max_le (by norm_num) (le_trans (sub_le_self _ hop) h1)
    have hrest : ∀ op2 ∈ rest, 0 ≤ op2.amt :=
      fun op2 h2 => hops op2 (List.mem_cons_of_mem op h2)
    have := ih (applyHealthOp m op) hstep.1 hstep.2 hrest
    simpa [applyHealthOps, List.foldl_cons] using this

/-- Witness for the health invariant at a concrete operation sequence. -/
theorem health_invariant_witness :
    0 ≤ (applyHealthOps mario0 [HealthOp.heal 100, HealthOp.dmg 0x200]).health ∧
    (applyHealthOps mario0 [HealthOp.heal 100, HealthOp.dmg 0x200]).health ≤ 0x880 ∧
    (applyHealthOps mario0 [HealthOp.heal 100, HealthOp.dmg 0x200]).wedges ≤ 8 :=
  health_invariant mario0 [HealthOp.heal 100, HealthOp.dmg 0x200]
    (by decide) (by decide) (by decide)

theorem Vec3.ext2 (a b : Vec3) (hx : a.x = b.x) (hy : a.y = b.y) (hz : a.z = b.z) : a = b := by
  cases a; cases b; simp_all

theorem subPos_zero (m : Mario) : subPos m 0 = m.pos := by
  apply Vec3.ext2 <;> simp [subPos]

theorem subPos_succ (m : Mario) (i : ℕ) :
    subPos m (i + 1) = Vec3.add (subPos m i) ⟨m.vel.x / 4, m.vel.y / 4, m.vel.z / 4⟩ := by
  apply Vec3.ext2 <;> simp [subPos, Vec3.add] <;> ring

theorem airQuarter_at (e : Env) (m : Mario) (j i : ℕ) (hji : i = j + 1)
    (F : Option Surface) (Y : ℚ) (m2 : Mario)
    (h : m2 = { m with pos := subPos m j, floor := F, floor_y := Y }) :
    airQuarter e ⟨m.vel.x / 4, m.vel.y / 4, m.vel.z / 4⟩ m2 =
      if landsAt e (subPos m i) then (landState e m (subPos m i), some .land)
      else
        match wallAt e m.face.y (subPos m i) with
        | some w => (wallState e m (subPos m i) w, some .wall)
        | none => (flyState e m (subPos m i), none) := by
  subst hji
  subst h
  unfold airQuarter landsAt wallAt landState wallState flyState
  simp only [subPos_succ]



/-- Claim C2: air_step divides the tick displacement (vel.x, vel.y, vel.z)
into 4 equal sub-steps; after adding each sub-step to the position it
re-queries find_floor and then find_wall, snapping to the floor and returning
land immediately when the position is at or below the floor height, zeroing
the horizontal velocity and returning wall immediately on a wall hit, and
returning air only after all 4 sub-steps complete without either event.
Stated as: the loop of the source equals the first-event scan over the
closed-form sub-step positions that the claim describes. -/
theorem air_step_eq_spec (e : Env) (m : Mario) : air_step e m = airStepSpec e m := by
  have h0 : m = { m with pos := subPos m 0, floor := m.floor, floor_y := m.floor_y } := by
    rw [subPos_zero]
  have st1 := airQuarter_at e m 0 1 rfl m.floor m.floor_y m h0
  have st2 := airQuarter_at e m 1 2 rfl _ _ (flyState e m (subPos m 1)) rfl
  have st3 := airQuarter_at e m 2 3 rfl _ _ (flyState e m (subPos m 2)) rfl
  have st4 := airQuarter_at e m 3 4 rfl _ _ (flyState e m (subPos m 3)) rfl
  unfold air_step airStepSpec
  have l4 : airLoop e ⟨m.vel.x / 4, m.vel.y / 4, m.vel.z / 4⟩ 4 m =
      (match airQuarter e ⟨m.vel.x / 4, m.vel.y / 4, m.vel.z / 4⟩ m with
       | (m1, some r) => (m1, r)
       | (m1, none) => airLoop e ⟨m.vel.x / 4, m.vel.y / 4, m.vel.z / 4⟩ 3 m1) := rfl
  rw [st1] at l4
  by_cases h1 : landsAt e (subPos m 1)
  · have he1 : airEventAt e m 1 = true := by simp [airEventAt, h1]
    have hf : [1, 2, 3, 4].find? (fun i => airEventAt e m i) = some 1 := by
      simp [List.find?_cons, he1]
    rw [if_pos h1] at l4
    dsimp only at l4
    rw [hf]
    dsimp only
    rw [if_pos h1]
    exact l4
  · rw [if_neg h1] at l4
    cases hw1 : wallAt e m.face.y (subPos m 1) with
    | some w =>
      have he1 : airEventAt e m 1 = true := by simp [airEventAt, hw1]
      have hf : [1, 2, 3, 4].find? (fun i => airEventAt e m i) = some 1 := by
        simp [List.find?_cons, he1]
      rw [hw1] at l4
      dsimp only at l4
      rw [hf]
      dsimp only
      rw [if_neg h1, hw1]
      exact l4
    | none =>
      rw [hw1] at l4
      dsimp only at l4
      have he1 : airEventAt e m 1 = false := by simp [airEventAt, h1, hw1]
      have l3 : airLoop e ⟨m.vel.x / 4, m.vel.y / 4, m.vel.z / 4⟩ 3 (flyState e m (subPos m 1)) =
          (match airQuarter e ⟨m.vel.x / 4, m.vel.y / 4, m.vel.z / 4⟩ (flyState e m (subPos m 1)) with
           | (m1, some r) => (m1, r)
           | (m1, none) => airLoop e ⟨m.vel.x / 4, m.vel.y / 4, m.vel.z / 4⟩ 2 m1) := rfl
      rw [st2] at l3
      rw [l3] at l4
      by_cases h2 : landsAt e (subPos m 2)
      · have he2 : airEventAt e m 2 = true := by simp [airEventAt, h2]
        have hf : [1, 2, 3, 4].find? (fun i => airEventAt e m i) = some 2 := by
          simp [List.find?_cons, he1, he2]
        rw [if_pos h2] at l4
        dsimp only at l4
        rw [hf]
        dsimp only
        rw [if_pos h2]
        exact l4
      · rw [if_neg h2] at l4
        cases hw2 : wallAt e m.face.y (subPos m 2) with
        | some w =>
          have he2 : airEventAt e m 2 = true := by simp [airEventAt, hw2]
          have hf : [1, 2, 3, 4].find? (fun i => airEventAt e m i) = some 2 := by
            simp [List.find?_cons, he1, he2]
          rw [hw2] at l4
          dsimp only at l4
          rw [hf]
          dsimp only
          rw [if_neg h2, hw2]
          exact l4
        | none =>
          rw [hw2] at l4
          dsimp only at l4
          have he2 : airEventAt e m 2 = false := by simp [airEventAt, h2, hw2]
          have l2 : airLoop e ⟨m.vel.x / 4, m.vel.y / 4, m.vel.z / 4⟩ 2 (flyState e m (subPos m 2)) =
              (match airQuarter e ⟨m.vel.x / 4, m.vel.y / 4, m.vel.z / 4⟩ (flyState e m (subPos m 2)) with
               | (m1, some r) => (m1, r)
               | (m1, none) => airLoop e ⟨m.vel.x / 4, m.vel.y / 4, m.vel.z / 4⟩ 1 m1) := rfl
          rw [st3] at l2
          rw [l2] at l4
          by_cases h3 : landsAt e (subPos m 3)
          · have he3 : airEventAt e m 3 = true := by simp [airEventAt, h3]
            have hf : [1, 2, 3, 4].find? (fun i => airEventAt e m i) = some 3 := by
              simp [List.find?_cons, he1, he2, he3]
            rw [if_pos h3] at l4
            dsimp only at l4
            rw [hf]
            dsimp only
            rw [if_pos h3]
            exact l4
          · rw [if_neg h3] at l4
            cases hw3 : wallAt e m.face.y (subPos m 3) with
            | some w =>
              have he3 : airEventAt e m 3 = true := by simp [airEventAt, hw3]
              have hf : [1, 2, 3, 4].find? (fun i => airEventAt e m i) = some 3 := by
                simp [List.find?_cons, he1, he2, he3]
              rw [hw3] at l4
              dsimp only at l4
              rw [hf]
              dsimp only
              rw [if_neg h3, hw3]
              exact l4
            | none =>
              rw [hw3] at l4
              dsimp only at l4
              have he3 : airEventAt e m 3 = false := by simp [airEventAt, h3, hw3]
              have l1 : airLoop e ⟨m.vel.x / 4, m.vel.y / 4, m.vel.z / 4⟩ 1 (flyState e m (subPos m 3)) =
                  (match airQuarter e ⟨m.vel.x / 4, m.vel.y / 4, m.vel.z / 4⟩ (flyState e m (subPos m 3)) with
                   | (m1, some r) => (m1, r)
                   | (m1, none) => airLoop e ⟨m.vel.x / 4, m.vel.y / 4, m.vel.z / 4⟩ 0 m1) := rfl
              rw [st4] at l1
              rw [l1] at l4
              by_cases h4 : landsAt e (subPos m 4)
              · have he4 : airEventAt e m 4 = true := by simp [airEventAt, h4]
                have hf : [1, 2, 3, 4].find? (fun i => airEventAt e m i) = some 4 := by
                  simp [List.find?_cons, he1, he2, he3, he4]
                rw [if_pos h4] at l4
                dsimp only at l4
                rw [hf]
                dsimp only
                rw [if_pos h4]
                exact l4
              · rw [if_neg h4] at l4
                cases hw4 : wallAt e m.face.y (subPos m 4) with
                | some w =>
                  have he4 : airEventAt e m 4 = true := by simp [airEventAt, hw4]
                  have hf : [1, 2, 3, 4].find? (fun i => airEventAt e m i) = some 4 := by
                    simp [List.find?_cons, he1, he2, he3, he4]
                  rw [hw4] at l4
                  dsimp only at l4
                  rw [hf]
                  dsimp only
                  rw [if_neg h4, hw4]
                  exact l4
                | none =>
                  rw [hw4] at l4
                  dsimp only at l4
                  have he4 : airEventAt e m 4 = false := by simp [airEventAt, h4, hw4]
                  have hf : [1, 2, 3, 4].find? (fun i => airEventAt e m i) = none := by
                    simp [List.find?_cons, he1, he2, he3, he4]
                  rw [hf]
                  exact l4

theorem ground_step_jcount (e : Env) (m : Mario) :
    ((ground_step e m).1).jcount = m.jcount := by
  unfold ground_step
  dsimp only
  split <;> rfl

theorem ground_step_jtimer (e : Env) (m : Mario) :
    ((ground_step e m).1).jtimer = m.jtimer := by
  unfold ground_step
  dsimp only
  split <;> rfl

theorem airQuarter_vel_y (e : Env) (q : Vec3) (m : Mario) :
    ((airQuarter e q m).1).vel.y = m.vel.y := by
  unfold airQuarter
  dsimp only
  split
  · rfl
  · split <;> rfl

theorem airLoop_vel_y (e : Env) (q : Vec3) (n : ℕ) (m : Mario) :
    ((airLoop e q n m).1).vel.y = m.vel.y := by
  induction n generalizing m with
  | zero => rfl
  | succ k ih =>
    unfold airLoop
    rcases hq : airQuarter e q m with ⟨m1, o⟩
    have h1 := airQuarter_vel_y e q m
    rw [hq] at h1
    cases o with
    | some r =>
      simp only [hq]
      exact h1
    | none =>
      simp only [hq]
      rw [ih m1]
      exact h1
/-- Claim C4 (amended): in the walking action (with the long-jump guard not
taken) a jump press arms the 5-tick window, bumps the consecutive-jump
counter, and transitions to triple jump exactly when the counter was at
least 2 and fvel exceeds 15, else to double jump when the counter was at
least 1, else to a single jump; a press-free walking tick decrements the
window timer while it is positive (the counter surviving) and resets the
counter only once the timer has already reached zero; and the triple-jump
handler sets the initial vertical velocity to exactly 69, independent of
forward speed (69 on the first tick, 65 = 69 + gravity after the air
update). -/
theorem a_walk_jump_logic (e : Env) (m : Mario) (c : Controller) :
    (c.pressed &&& IN_A ≠ 0 → ¬(m.fvel > 10 ∧ c.down &&& IN_Z_D ≠ 0) →
      (a_walk e m c).action = (if 3 ≤ m.jcount + 1 ∧ m.fvel > 15 then ACT_TRIPLE
        else if 2 ≤ m.jcount + 1 then ACT_DBL_JUMP else ACT_JUMP) ∧
      (a_walk e m c).jcount = m.jcount + 1 ∧ (a_walk e m c).jtimer = 5) ∧
    (c.pressed &&& IN_A = 0 → c.pressed &&& IN_B = 0 → ¬(c.stick_mag = 0) →
      (a_walk e m c).jcount = (if 0 < m.jtimer then m.jcount else 0) ∧
      (a_walk e m c).jtimer = (if 0 < m.jtimer then m.jtimer - 1 else m.jtimer)) ∧
    (m.atimer = 0 →
      (a_triple e m c).vel.y = (if c.pressed &&& IN_Z ≠ 0 then (69 : ℚ) else 65)) := by
  have hj1 : ∀ mm : Mario, ((if (ground_step e mm).2 = GRes.air
      then ((ground_step e mm).1).set_act ACT_FREEFALL
      else (ground_step e mm).1)).jcount = mm.jcount := by
    intro mm
    split <;> simp [Mario.set_act, ground_step_jcount]
  have hj2 : ∀ mm : Mario, ((if (ground_step e mm).2 = GRes.air
      then ((ground_step e mm).1).set_act ACT_FREEFALL
      else (ground_step e mm).1)).jtimer = mm.jtimer := by
    intro mm
    split <;> simp [Mario.set_act, ground_step_jtimer]
  refine ⟨?_, ?_, ?_⟩
  · intro hA hLJ
    unfold a_walk
    rw [if_pos hA, if_neg hLJ]
    dsimp only
    split_ifs <;> simp_all [Mario.set_act]
  · intro hA hB hs
    unfold a_walk
    rw [if_neg (fun hc => hc hA), if_neg (fun hc => hc hB), if_neg hs]
    dsimp only
    constructor
    · simp only [apply_ite Mario.jcount, hj1, hj2]
      simp [set_fvel, Mario.set_act, ground_step_jcount, ground_step_jtimer]
    · simp only [apply_ite Mario.jtimer, hj1, hj2]
      simp [set_fvel, Mario.set_act, ground_step_jcount, ground_step_jtimer]
  · intro hat
    unfold a_triple triple_init
    rw [if_pos hat]
    by_cases hZ : c.pressed &&& IN_Z ≠ 0
    · rw [if_pos hZ, if_pos hZ]
      simp [Mario.set_act]
    · rw [if_neg hZ, if_neg hZ]
      dsimp only
      have hv : ((air_step e (update_air e
            { m with vel := { m.vel with y := 69 }, peak_y := m.pos.y })).1).vel.y
          = (update_air e { m with vel := { m.vel with y := 69 }, peak_y := m.pos.y }).vel.y :=
        airLoop_vel_y e _ 4 _
      cases hr : (air_step e (update_air e
          { m with vel := { m.vel with y := 69 }, peak_y := m.pos.y })).2 with
      | land =>
        simp only [hr, Mario.set_act, hv]
        norm_num [update_air, GRAVITY, MAX_FALL]
      | wall =>
        simp only [hr, Mario.set_act, hv]
        norm_num [update_air, GRAVITY, MAX_FALL]
      | air =>
        simp only [hr, Mario.set_act, hv]
        norm_num [update_air, GRAVITY, MAX_FALL]

/-- Claim C4 counterexample: with the counter at 2 and fvel = 5 a jump press
yields a double jump, where the claim (counter not at 1) predicts a single
jump; and with the counter at 1 and the window timer already at 0 a jump
press still yields a double jump, where the claim says the counter has been
reset. -/
theorem a_walk_cex :
    (({ mario0 with action := ACT_WALKING, jcount := 2, fvel := 5 } : Mario).jcount = 2) ∧
    ¬(({ mario0 with action := ACT_WALKING, jcount := 2, fvel := 5 } : Mario).fvel > 15) ∧
    (a_walk env0 { mario0 with action := ACT_WALKING, jcount := 2, fvel := 5 }
      { stick_mag := 0, pressed := IN_A, down := 0 }).action = ACT_DBL_JUMP ∧
    (({ mario0 with action := ACT_WALKING, jcount := 1, jtimer := 0 } : Mario).jtimer = 0) ∧
    (a_walk env0 { mario0 with action := ACT_WALKING, jcount := 1, jtimer := 0 }
      { stick_mag := 0, pressed := IN_A, down := 0 }).action = ACT_DBL_JUMP ∧
    ACT_DBL_JUMP ≠ ACT_JUMP := by
  decide

/-- Witness for the walk jump logic at concrete inputs: a third quick press
with fvel = 20 triple-jumps, the counter resets on a press-free tick with the
timer at zero, and the triple jump launches at exactly 69. -/
theorem a_walk_jump_logic_witness :
    (a_walk env0 { mario0 with action := ACT_WALKING, jcount := 2, fvel := 20 }
      { stick_mag := 0, pressed := IN_A, down := 0 }).action = ACT_TRIPLE ∧
    (a_walk env0 { mario0 with action := ACT_WALKING, jcount := 1, jtimer := 0 } ctrl1).jcount = 0 ∧
    (a_triple env0 { mario0 with action := ACT_TRIPLE }
      { stick_mag := 0, pressed := IN_Z, down := 0 }).vel.y = 69 := by
  refine ⟨?_, ?_, ?_⟩
  · have h1 := ((a_walk_jump_logic env0
      { mario0 with action := ACT_WALKING, jcount := 2, fvel := 20 }
      { stick_mag := 0, pressed := IN_A, down := 0 }).1 (by decide) (by decide)).1
    norm_num [mario0] at h1
    exact h1
  · have h2 := ((a_walk_jump_logic env0
      { mario0 with action := ACT_WALKING, jcount := 1, jtimer := 0 } ctrl1).2.1
      (by decide) (by decide) (by decide)).1
    norm_num [mario0] at h2
    exact h2
  · have h3 := (a_walk_jump_logic env0 { mario0 with action := ACT_TRIPLE }
      { stick_mag := 0, pressed := IN_Z, down := 0 }).2.2 (by decide)
    norm_num [IN_Z] at h3
    exact h3

/-- Claim C8 counterexample: a backflip whose air step lands, with the stick
pushed (stick magnitude 1), still enters idle rather than walking, refuting
the claim that every airborne action except dive, slide-kick and ground-pound
lands into walking when the stick is nonzero. -/
theorem a_backflip_cex :
    (air_step envG (update_air envG m_bf)).2 = StepRes.land ∧
    (0 : ℚ) < ctrl1.stick_mag ∧
    (a_backflip envG m_bf ctrl1).action = ACT_IDLE ∧
    ACT_IDLE ≠ ACT_WALKING := by
  norm_num [a_backflip, backflip_init, air_step, airLoop, airQuarter, update_air,
    find_floor, find_floor_aux, find_wall, Vec3.add, envG, m_bf, mario0, groundS, ctrl1,
    Surface.minX, Surface.maxX, Surface.minZ, Surface.maxZ, Surface.minY, Surface.maxY,
    planeY, AIR_DRAG, GRAVITY, MAX_FALL, Mario.set_act, ACT_IDLE, ACT_WALKING]

/-- Claim C8 (amended): on a landing air step, jump, double jump, triple
jump, wall kick and freefall enter walking when the stick magnitude is
nonzero and idle otherwise; backflip, side flip, long jump, knockback and
lava boost enter idle unconditionally; dive enters the belly slide and the
ground-pound plunge enters the ground-pound-land recovery (this code has no
slide-kick action). -/
theorem air_landing_transitions (e : Env) (m : Mario) (c : Controller) :
    (c.pressed &&& IN_Z = 0 → c.pressed &&& IN_B = 0 →
      (air_step e (update_air e (jump_init m))).2 = StepRes.land →
      (a_jump e m c).action = (if c.stick_mag > 0 then ACT_WALKING else ACT_IDLE)) ∧
    (c.pressed &&& IN_Z = 0 → c.pressed &&& IN_B = 0 →
      (air_step e (update_air e (dbl_init m))).2 = StepRes.land →
      (a_dbl e m c).action = (if c.stick_mag > 0 then ACT_WALKING else ACT_IDLE)) ∧
    (c.pressed &&& IN_Z = 0 →
      (air_step e (update_air e (triple_init m))).2 = StepRes.land →
      (a_triple e m c).action = (if c.stick_mag > 0 then ACT_WALKING else ACT_IDLE)) ∧
    ((air_step e (update_air e (wallkick_init m))).2 = StepRes.land →
      (a_wallkick e m c).action = (if c.stick_mag > 0 then ACT_WALKING else ACT_IDLE)) ∧
    (¬(c.pressed &&& IN_A ≠ 0 ∧ m.wktimer > 0) → c.pressed &&& IN_Z = 0 →
      c.pressed &&& IN_B = 0 →
      (air_step e (update_air e m)).2 = StepRes.land →
      (a_freefall e m c).action = (if c.stick_mag > 0 then ACT_WALKING else ACT_IDLE)) ∧
    ((air_step e (update_air e (backflip_init e m))).2 = StepRes.land →
      (a_backflip e m c).action = ACT_IDLE) ∧
    ((air_step e (update_air e (sideflip_init e m))).2 = StepRes.land →
      (a_sideflip e m c).action = ACT_IDLE) ∧
    ((air_step e (update_air e (longjump_init e m))).2 = StepRes.land →
      (a_longjump e m c).action = ACT_IDLE) ∧
    ((air_step e (update_air e (knock_init e m))).2 = StepRes.land →
      (a_knock e m c).action = ACT_IDLE) ∧
    ((air_step e (update_air e (lava_init m))).2 = StepRes.land →
      (a_lava e m c).action = ACT_IDLE) ∧
    ((air_step e (update_air e (dive_init e m))).2 = StepRes.land →
      (a_dive e m c).action = ACT_BELLY_SLIDE) ∧
    (m.astate ≠ 0 → (air_step e m).2 = StepRes.land →
      (a_gp e m c).action = ACT_GP_LAND) := by
  refine ⟨?_, ?_, ?_, ?_, ?_, ?_, ?_, ?_, ?_, ?_, ?_, ?_⟩
  · intro hZ hB hl
    unfold a_jump
    rw [if_neg (fun hc => hc hZ), if_neg (fun hc => hc hB)]
    dsimp only
    rw [hl]
    simp [Mario.set_act]
  · intro hZ hB hl
    unfold a_dbl
    rw [if_neg (fun hc => hc hZ), if_neg (fun hc => hc hB)]
    dsimp only
    rw [hl]
    simp [Mario.set_act]
  · intro hZ hl
    unfold a_triple
    rw [if_neg (fun hc => hc hZ)]
    dsimp only
    rw [hl]
    simp [Mario.set_act]
  · intro hl
    unfold a_wallkick
    dsimp only
    rw [hl]
    simp [Mario.set_act]
  · intro hAW hZ hB hl
    unfold a_freefall
    rw [if_neg hAW, if_neg (fun hc => hc hZ), if_neg (fun hc => hc hB)]
    dsimp only
    rw [hl]
    dsimp only
    split <;> simp [Mario.set_act, apply_ite]
  · intro hl
    unfold a_backflip
    dsimp only
    rw [hl]
    simp [Mario.set_act]
  · intro hl
    unfold a_sideflip
    dsimp only
    rw [hl]
    simp [Mario.set_act]
  · intro hl
    unfold a_longjump
    dsimp only
    rw [hl]
    simp [Mario.set_act]
  · intro hl
    unfold a_knock
    dsimp only
    rw [hl]
    simp [Mario.set_act]
  · intro hl
    unfold a_lava
    dsimp only
    rw [hl]
    simp [Mario.set_act]
  · intro hl
    unfold a_dive
    dsimp only
    rw [hl]
    simp [Mario.set_act]
  · intro hst hl
    unfold a_gp
    rw [if_neg hst]
    dsimp only
    rw [hl]
    simp [Mario.set_act]

/-- Witness for the landing transitions: a concrete dive one tick after
launch lands into the belly slide. -/
theorem air_landing_transitions_witness :
    (a_dive envG m_dv ctrl0).action = ACT_BELLY_SLIDE := by
  have h := (air_landing_transitions envG m_dv ctrl0).2.2.2.2.2.2.2.2.2.2.1
  apply h
  norm_num [dive_init, air_step, airLoop, airQuarter, update_air, set_fvel,
    find_floor, find_floor_aux, find_wall, Vec3.add, envG, m_dv, mario0, groundS,
    Surface.minX, Surface.maxX, Surface.minZ, Surface.maxZ, Surface.minY, Surface.maxY,
    planeY, AIR_DRAG, GRAVITY, MAX_FALL]

/-- Claim C6 (amended): a coin or one-up actor that is active, uncollected
and within collection range is collected by one run of interaction
resolution: its collected flag is set, its active flag cleared, and the
corresponding counter incremented by its fixed value (coins by o.coins with
the matching heal, lives by 1); a star is collected the same way, the star
counter incremented by exactly 1, but only when the character does not
already hold that star id — an already-held star is left untouched and grants
nothing.  Once deactivated, every later run skips the actor: its processing
leaves the Mario state (hence every reward counter) unchanged, a run over the
singleton world is a complete no-op, and in any larger world the actor's
entry survives every run unchanged. -/
theorem collect_idempotent (e : Env) (c : Controller) (lvl : ℕ) (m : Mario) (o : Obj) :
    (o.active = true → o.collected = false →
     ¬(e.sqrtq ((m.pos.x - o.pos.x) * (m.pos.x - o.pos.x) +
         (m.pos.y - o.pos.y) * (m.pos.y - o.pos.y) +
         (m.pos.z - o.pos.z) * (m.pos.z - o.pos.z)) > o.irange + 30) →
      ((o.type = ObjType.COIN ∨ o.type = ObjType.COIN_RED ∨ o.type = ObjType.COIN_BLUE →
        interact_objs e c lvl m [o] =
          (({ m with coins := m.coins + o.coins }).heal (0x40 * o.coins),
           [{ o with collected := true, active := false }], none)) ∧
       (o.type = ObjType.ONE_UP →
        interact_objs e c lvl m [o] =
          ({ m with lives := m.lives + 1 },
           [{ o with collected := true, active := false }], none)) ∧
       (o.type = ObjType.STAR → ¬m.has_star lvl o.star_id →
        interact_objs e c lvl m [o] =
          ((m.get_star lvl o.star_id).set_act ACT_STAR_DANCE,
           [{ o with collected := true, active := false }], none) ∧
          (m.get_star lvl o.star_id).stars = m.stars + 1) ∧
       (o.type = ObjType.STAR → m.has_star lvl o.star_id →
        interact_objs e c lvl m [o] = (m, [o], none)))) ∧
    (o.active = false →
      (∀ m2 : Mario, interact_one e c lvl m2 o = (m2, o, none)) ∧
      (∀ m2 : Mario, interact_objs e c lvl m2 [o] = (m2, [o], none)) ∧
      (∀ (l1 l2 : List Obj) (m2 : Mario),
        ((interact_objs e c lvl m2 (l1 ++ o :: l2)).2.1).get? l1.length = some o)) := by
  have hskip : ∀ (m2 : Mario), o.active = false → interact_one e c lvl m2 o = (m2, o, none) := by
    intro m2 h
    unfold interact_one
    rw [if_pos (Or.inl (by simp [h]))]
  have hlift : ∀ (m2 : Mario) (o2 : Obj) (r : Mario × Obj),
      interact_one e c lvl m2 o2 = (r.1, r.2, none) →
      interact_objs e c lvl m2 [o2] = (r.1, [r.2], none) := by
    intro m2 o2 r hr
    unfold interact_objs
    rw [hr]
    dsimp only
    unfold interact_objs
    rfl
  constructor
  · intro ha hc hrange
    have hstep : ∀ (t : Mario × Obj),
        (¬o.active ∨ o.collected) = False →
        True := fun _ _ => trivial
    refine ⟨?_, ?_, ?_, ?_⟩
    · intro htype
      refine hlift m o ⟨({ m with coins := m.coins + o.coins }).heal (0x40 * o.coins),
        { o with collected := true, active := false }⟩ ?_
      unfold interact_one
      rw [if_neg (by simp [ha, hc]), if_neg hrange]
      rcases htype with h | h | h <;> rw [h]
    · intro htype
      refine hlift m o ⟨{ m with lives := m.lives + 1 },
        { o with collected := true, active := false }⟩ ?_
      unfold interact_one
      rw [if_neg (by simp [ha, hc]), if_neg hrange]
      rw [htype]
    · intro htype hstar
      constructor
      · refine hlift m o ⟨(m.get_star lvl o.star_id).set_act ACT_STAR_DANCE,
          { o with collected := true, active := false }⟩ ?_
        unfold interact_one
        rw [if_neg (by simp [ha, hc]), if_neg hrange]
        rw [htype]
        dsimp only
        rw [if_pos hstar]
      · unfold Mario.get_star
        rw [if_neg (show ¬(o.star_id ∈ lookupStars m.lvl_stars lvl) from hstar)]
    · intro htype hstar
      refine hlift m o ⟨m, o⟩ ?_
      unfold interact_one
      rw [if_neg (by simp [ha, hc]), if_neg hrange]
      rw [htype]
      dsimp only
      rw [if_neg (fun hn => hn hstar)]
  · intro hinact
    refine ⟨fun m2 => hskip m2 hinact, ?_, ?_⟩
    · intro m2
      exact hlift m2 o ⟨m2, o⟩ (hskip m2 hinact)
    · intro l1
      induction l1 with
      | nil =>
        intro l2 m2
        simp only [List.nil_append]
        unfold interact_objs
        rw [hskip m2 hinact]
        dsimp only
        rcases hrec : interact_objs e c lvl m2 l2 with ⟨m3, rest3, w3⟩
        simp [hrec]
      | cons a l1 ih =>
        intro l2 m2
        unfold interact_objs
        rcases h1 : interact_one e c lvl m2 a with ⟨m1, a1, w⟩
        cases w with
        | some t =>
          simp only [List.cons_append, h1]
          simp [List.getElem?_append_right]
          rw [List.getElem_append_right (Nat.le_refl _)]
          simp
        | none =>
          simp only [List.cons_append, h1]
          rcases hrec : interact_objs e c lvl m1 (l1 ++ o :: l2) with ⟨m3, rest3, w3⟩
          simp only [hrec]
          have := ih l2 m1
          rw [hrec] at this
          simpa using this

/-- Claim C6 counterexample: a star actor within collection range whose star
id the character already holds (possible after re-entering the level) is
never collected: one run of interaction resolution leaves its flags and the
star counter completely unchanged, refuting the claim that every collectible
in range deactivates and grants its reward exactly once. -/
theorem interact_star_held_cex :
    star0.active = true ∧ star0.collected = false ∧
    ¬(env0.sqrtq ((mario0.pos.x - star0.pos.x) * (mario0.pos.x - star0.pos.x) +
        (mario0.pos.y - star0.pos.y) * (mario0.pos.y - star0.pos.y) +
        (mario0.pos.z - star0.pos.z) * (mario0.pos.z - star0.pos.z)) > star0.irange + 30) ∧
    Mario.has_star { mario0 with lvl_stars := [(0, [0])] } 0 star0.star_id ∧
    interact_objs env0 ctrl0 0 { mario0 with lvl_stars := [(0, [0])] } [star0] =
      ({ mario0 with lvl_stars := [(0, [0])] }, [star0], none) := by
  refine ⟨rfl, rfl, by norm_num [env0, mario0, star0, coin0], ?_, ?_⟩
  · simp [Mario.has_star, lookupStars, star0, coin0]
  · norm_num [interact_objs, interact_one, env0, mario0, star0, coin0,
      Mario.has_star, lookupStars]

/-- Witness for collection idempotence: a concrete coin is collected by one
run and the follow-up run on the deactivated coin is a no-op. -/
theorem collect_idempotent_witness :
    interact_objs env0 ctrl0 0 mario0 [coin0] =
      (({ mario0 with coins := mario0.coins + coin0.coins }).heal (0x40 * coin0.coins),
       [{ coin0 with collected := true, active := false }], none) ∧
    interact_objs env0 ctrl0 0 mario0 [{ coin0 with collected := true, active := false }] =
      (mario0, [{ coin0 with collected := true, active := false }], none) := by
  constructor
  · exact ((collect_idempotent env0 ctrl0 0 mario0 coin0).1 rfl rfl
      (by norm_num [env0, mario0, coin0])).1 (Or.inl rfl)
  · exact (((collect_idempotent env0 ctrl0 0 mario0
      { coin0 with collected := true, active := false }).2 rfl).2.1) mario0

end SM64
